import Mathlib

/-!
Verification of the pybaseball MCP server's validation, formatting and
chart-artifact pipeline, shallowly embedded from the Python sources
(`utils/validation.py`, `utils/data_processing.py`,
`utils/chart_display/chart_processor.py`,
`utils/chart_display/artifact_creator.py`, `tools/stats_tools.py`,
`tools/plotting_tools.py`).

Python exceptions are modelled with `Except String`; `ValidationError e`
becomes `Except.error e`.  Machine floats only occur with integral values
in the verified paths and are modelled as `Rat`.
-/

/-! ## Generic string helpers (Python semantics) -/

/-- Is `sub` a prefix of `l` (list-of-chars version of Python `startswith`). -/
def prefixOfL : List Char → List Char → Bool
  | [], _ => true
  | _ :: _, [] => false
  | a :: as, b :: bs => a = b && prefixOfL as bs

/-- Does `sub` occur contiguously inside `l` (Python `in`). -/
def insideL (sub : List Char) : List Char → Bool
  | [] => prefixOfL sub []
  | c :: rest => prefixOfL sub (c :: rest) || insideL sub rest

/-- Python `sub in s` for strings. -/
def strContains (s sub : String) : Bool := insideL sub.toList s.toList

/-- The characters removed by Python `str.strip()` (ASCII whitespace set). -/
def pyWsChar (c : Char) : Bool :=
  c = ' ' || c = '\t' || c = '\n' || c = '\r' || c = '\x0b' || c = '\x0c'

/-- Python `str.strip()`. -/
def pyStrip (s : String) : String :=
  String.mk (((s.toList.dropWhile pyWsChar).reverse.dropWhile pyWsChar).reverse)

/-- Python `str.upper()` (ASCII case mapping suffices for this code). -/
def pyUpper (s : String) : String := String.mk (s.toList.map Char.toUpper)

/-- Python `str.lower()`. -/
def pyLower (s : String) : String := String.mk (s.toList.map Char.toLower)

/-- Python `s.startswith(p)`. -/
def pyStartsWith (s p : String) : Bool := prefixOfL p.toList s.toList

/-- Python `str.split(sep)` for a one-character separator (the only kind
this code uses). -/
def splitOnCharL (sep : Char) : List Char → List (List Char)
  | [] => [[]]
  | c :: rest =>
    let r := splitOnCharL sep rest
    if c = sep then [] :: r
    else
      match r with
      | [] => [[c]]
      | h :: t => (c :: h) :: t

/-- Python `s.split(sep)` (one-character separator). -/
def pySplit (s : String) (sep : Char) : List String :=
  (splitOnCharL sep s.toList).map String.mk

/-- Fuelled left-to-right non-overlapping replace-all on char lists
(the fuel is the list length, which bounds the number of steps). -/
def replaceLF (pat rep : List Char) : Nat → List Char → List Char
  | 0, cs => cs
  | fuel + 1, cs =>
    match cs with
    | [] => []
    | c :: rest =>
      if pat ≠ [] ∧ prefixOfL pat cs then
        rep ++ replaceLF pat rep fuel (cs.drop pat.length)
      else c :: replaceLF pat rep fuel rest

/-- Python `s.replace(pat, rep)` (left-to-right, non-overlapping). -/
def pyReplace (s pat rep : String) : String :=
  String.mk (replaceLF pat.toList rep.toList s.toList.length s.toList)

/-- `s` starts with `p` (specification-level proposition). -/
def strStarts (s p : String) : Prop := ∃ r, s = p ++ r

/-- `s` ends with `p` (specification-level proposition). -/
def strEnds (s p : String) : Prop := ∃ r, s = r ++ p

/-- `s` contains `sub` (specification-level proposition). -/
def strHas (s sub : String) : Prop := ∃ p q, s = p ++ (sub ++ q)

/-! ## Python numbers (`validation.py` numeric parameters)

`PyVal` models the `Union[int, float, str]` arguments of
`Validator.validate_numeric_range`.  Floats carry a `Rat`; only integral
floats are rendered in the verified paths. -/

/-- A Python value that may be an int, a float or a string. -/
inductive PyVal where
  | int (n : Int)
  | float (q : Rat)
  | str (s : String)
deriving DecidableEq

/-- List of chars is all ASCII digits. -/
def allDigitsL (cs : List Char) : Bool := cs.all (fun c => '0' ≤ c && c ≤ '9')

/-- Numeric value of a digit list (most significant first). -/
def digitsValL (cs : List Char) : Nat :=
  cs.foldl (fun acc c => 10 * acc + (c.toNat - '0'.toNat)) 0

/-- Python `float(s)` for plain decimal strings (sign, digits, optional
fraction).  Exponent/infinity forms accepted by Python are not modelled;
no verified claim depends on them. -/
def pyParseFloat (s : String) : Option Rat :=
  let cs := (pyStrip s).toList
  let sign : Int := match cs with | '-' :: _ => -1 | _ => 1
  let cs := match cs with | '-' :: r => r | '+' :: r => r | _ => cs
  let ip := cs.takeWhile (fun c => '0' ≤ c && c ≤ '9')
  match cs.drop ip.length with
  | [] => if ip.isEmpty then none else some (sign * (digitsValL ip : Int))
  | '.' :: fp =>
      if allDigitsL fp && !(ip.isEmpty && fp.isEmpty) then
        some ((sign * (digitsValL ip : Int) : Rat) +
          (sign : Rat) * (digitsValL fp : Rat) / ((10 : Rat) ^ fp.length))
      else none
  | _ => none

/-- Python `float(value)` coercion on a `PyVal`. -/
def pyFloat : PyVal → Option Rat
  | .int n => some (n : Rat)
  | .float q => some q
  | .str s => pyParseFloat s

/-- Python `str()` / f-string rendering of a `PyVal`.  Integral floats
render with a trailing `.0` exactly as in Python; non-integral floats do
not occur in the verified paths and fall back to the `Rat` printer. -/
def pyStr : PyVal → String
  | .int n => toString n
  | .float q => if q.den = 1 then toString q.num ++ ".0" else toString q
  | .str s => s

/-- Rendering of a numeric bound in a `validate_numeric_range` error
message (the call sites pass Python ints, which render without `.0`). -/
def ratStr (q : Rat) : String :=
  if q.den = 1 then toString q.num else toString q

/-! ## Validator (`utils/validation.py`) -/

/-- `Validator.valid_teams` (`validation.py` lines 25-30). -/
def valid_teams : List String :=
  ["LAA", "HOU", "OAK", "TOR", "ATL", "MIL", "STL", "CHC",
   "ARI", "LAD", "SF", "CLE", "SEA", "MIA", "NYM", "WSH",
   "BAL", "SD", "PHI", "PIT", "TEX", "TB", "BOS", "CIN",
   "COL", "KC", "DET", "MIN", "CWS", "NYY"]

/-- `sorted(self.valid_teams)` used in the error message. -/
def valid_teams_sorted : List String :=
  ["ARI", "ATL", "BAL", "BOS", "CHC", "CIN", "CLE", "COL", "CWS", "DET",
   "HOU", "KC", "LAA", "LAD", "MIA", "MIL", "MIN", "NYM", "NYY", "OAK",
   "PHI", "PIT", "SD", "SEA", "SF", "STL", "TB", "TEX", "TOR", "WSH"]

/-- `Validator.validate_season` (`validation.py` lines 60-75), for an
integer argument (for which `int(season)` cannot fail).  `current_year`
is `datetime.now().year`, passed explicitly. -/
def validate_season (current_year : Int) (season : Int) : Except String Int :=
  if season < 1871 then .error ("Season cannot be before 1871")
  else if season > current_year + 1 then
    .error ("Season cannot be after " ++ toString (current_year + 1))
  else .ok season

/-- `Validator.validate_team` (`validation.py` lines 121-135). -/
def validate_team (team : String) : Except String String :=
  if team = "" then .error ("Team must be a non-empty string")
  else
    let team_upper := pyStrip (pyUpper team)
    if valid_teams.contains team_upper then .ok team_upper
    else .error ("Invalid team abbreviation: " ++ (team ++ (". Valid teams: " ++
      String.intercalate ", " valid_teams_sorted)))

/-- Characters allowed by the player-name pattern
`^[a-zA-Z\s\-'\.]+$` (`validation.py` line 55). -/
def playerNameChar (c : Char) : Bool :=
  c.isAlpha || pyWsChar c || c = '-' || c = '\x27' || c = '.'

/-- `Validator.validate_player_name` (`validation.py` lines 40-58). -/
def validate_player_name (name : String) : Except String String :=
  if name = "" then .error ("Player name must be a non-empty string")
  else
    let cleaned_name := pyStrip name
    if cleaned_name.length < 2 then
      .error ("Player name must be at least 2 characters long")
    else if cleaned_name.length > 50 then
      .error ("Player name is unusually long")
    else if !(cleaned_name.toList.all playerNameChar) then
      .error ("Player name contains invalid characters")
    else .ok cleaned_name

/-- `Validator.validate_numeric_range` (`validation.py` lines 195-211). -/
def validate_numeric_range (value : PyVal) (min_val max_val : Option Rat)
    (param_name : String) : Except String PyVal :=
  match pyFloat value with
  | none => .error (param_name ++ " must be a valid number")
  | some numeric_val =>
    match min_val with
    | some m =>
      if numeric_val < m then
        .error (param_name ++ (" must be at least " ++ ratStr m))
      else
        match max_val with
        | some mx =>
          if numeric_val > mx then
            .error (param_name ++ (" cannot exceed " ++ ratStr mx))
          else .ok (.float numeric_val)
        | none => .ok (.float numeric_val)
    | none =>
      match max_val with
      | some mx =>
        if numeric_val > mx then
          .error (param_name ++ (" cannot exceed " ++ ratStr mx))
        else .ok (.float numeric_val)
      | none => .ok (.float numeric_val)

/-! ## DataProcessor (`utils/data_processing.py`) -/

/-- A pandas DataFrame, abstracted to its column names and rows.  The
cell representation is irrelevant to the verified claims; only emptiness
and identity of the table matter. -/
structure DataFrame where
  cols : List String
  rows : List (List String)
deriving DecidableEq

/-- pandas `df.empty`: true when either axis has length 0. -/
def DataFrame.isEmptyDf (df : DataFrame) : Bool :=
  df.rows.isEmpty || df.cols.isEmpty

/-- `DataProcessor.format_dataframe_as_markdown` (`data_processing.py`
lines 55-68).  `toMd` stands for the external pandas renderer
(3-decimal rounding followed by `to_markdown`), an opaque collaborator
per the specification. -/
def format_dataframe_as_markdown (toMd : DataFrame → String)
    (df : DataFrame) (title : String) : String :=
  if df.isEmptyDf then "## " ++ (title ++ "\n\nNo data available.")
  else (if title ≠ "" then "## " ++ (title ++ "\n\n") else "") ++ toMd df

/-! ## Date parsing (`Validator.validate_date`, `validation.py` lines 77-102)

`datetime.strptime` is modelled faithfully for the four formats used:
`%Y` is exactly four digits, `%m` matches the regex `1[0-2]|0[1-9]|[1-9]`,
`%d` matches `3[01]|[12]\d|0[1-9]|[1-9]` (alternatives tried in that
order, with backtracking), the whole string must be consumed, and the
final `datetime(...)` construction rejects day numbers invalid for the
month, as well as year 0. -/

/-- Numeric value of an ASCII digit char. -/
def digitVal (c : Char) : Option Nat :=
  if '0' ≤ c && c ≤ '9' then some (c.toNat - '0'.toNat) else none

/-- `%Y`: exactly four digits. -/
def parseY4 (cs : List Char) : Option (Nat × List Char) :=
  match cs with
  | a :: b :: c :: d :: rest =>
    match digitVal a, digitVal b, digitVal c, digitVal d with
    | some va, some vb, some vc, some vd =>
      some (((va * 10 + vb) * 10 + vc) * 10 + vd, rest)
    | _, _, _, _ => none
  | _ => none

/-- `%m` alternatives `1[0-2] | 0[1-9] | [1-9]`, in priority order. -/
def parseM (cs : List Char) : List (Nat × List Char) :=
  (match cs with
   | '1' :: c :: rest =>
     match digitVal c with
     | some v => if v ≤ 2 then [(10 + v, rest)] else []
     | none => []
   | _ => []) ++
  (match cs with
   | '0' :: c :: rest =>
     match digitVal c with
     | some v => if 1 ≤ v then [(v, rest)] else []
     | none => []
   | _ => []) ++
  (match cs with
   | c :: rest =>
     match digitVal c with
     | some v => if 1 ≤ v then [(v, rest)] else []
     | none => []
   | [] => [])

/-- `%d` alternatives `3[01] | [12]\d | 0[1-9] | [1-9]`, in priority order. -/
def parseD (cs : List Char) : List (Nat × List Char) :=
  (match cs with
   | '3' :: c :: rest =>
     match digitVal c with
     | some v => if v ≤ 1 then [(30 + v, rest)] else []
     | none => []
   | _ => []) ++
  (match cs with
   | c1 :: c2 :: rest =>
     match digitVal c1, digitVal c2 with
     | some v1, some v2 => if 1 ≤ v1 && v1 ≤ 2 then [(v1 * 10 + v2, rest)] else []
     | _, _ => []
   | _ => []) ++
  (match cs with
   | '0' :: c :: rest =>
     match digitVal c with
     | some v => if 1 ≤ v then [(v, rest)] else []
     | none => []
   | _ => []) ++
  (match cs with
   | c :: rest =>
     match digitVal c with
     | some v => if 1 ≤ v then [(v, rest)] else []
     | none => []
   | [] => [])

/-- Try regex alternatives in order, running the continuation on each. -/
def tryCands {α : Type} (cands : List (Nat × List Char))
    (k : Nat → List Char → Option α) : Option α :=
  match cands with
  | [] => none
  | (v, r) :: rest =>
    match k v r with
    | some x => some x
    | none => tryCands rest k

/-- Match a literal character. -/
def lit (c : Char) (cs : List Char) : Option (List Char) :=
  match cs with
  | c' :: r => if c' = c then some r else none
  | [] => none

/-- Gregorian leap year (as in Python `calendar`/`datetime`). -/
def isLeap (y : Nat) : Bool :=
  y % 4 = 0 && (y % 100 ≠ 0 || y % 400 = 0)

/-- Days in a month of a given year. -/
def daysInMonth (y m : Nat) : Nat :=
  match m with
  | 1 => 31 | 2 => if isLeap y then 29 else 28 | 3 => 31 | 4 => 30
  | 5 => 31 | 6 => 30 | 7 => 31 | 8 => 31 | 9 => 30 | 10 => 31
  | 11 => 30 | 12 => 31 | _ => 0

/-- Validity check performed by the `datetime(year, month, day)`
constructor inside `strptime`. -/
def validDate (y m d : Nat) : Bool :=
  1 ≤ y && y ≤ 9999 && 1 ≤ m && m ≤ 12 && 1 ≤ d && d ≤ daysInMonth y m

/-- `datetime` construction at the end of `strptime`. -/
def checkDate (y m d : Nat) : Option (Nat × Nat × Nat) :=
  if validDate y m d then some (y, m, d) else none

/-- Run a `%Y<sep>%m<sep>%d` format against the whole string. -/
def runYfirst (sep : Char) (cs : List Char) : Option (Nat × Nat × Nat) :=
  match parseY4 cs with
  | none => none
  | some (y, r1) =>
    match lit sep r1 with
    | none => none
    | some r2 =>
      tryCands (parseM r2) (fun m r3 =>
        match lit sep r3 with
        | none => none
        | some r4 =>
          tryCands (parseD r4) (fun d r5 =>
            match r5 with
            | [] => checkDate y m d
            | _ :: _ => none))

/-- Run a `%m<sep>%d<sep>%Y` format against the whole string. -/
def runYlast (sep : Char) (cs : List Char) : Option (Nat × Nat × Nat) :=
  tryCands (parseM cs) (fun m r1 =>
    match lit sep r1 with
    | none => none
    | some r2 =>
      tryCands (parseD r2) (fun d r3 =>
        match lit sep r3 with
        | none => none
        | some r4 =>
          match parseY4 r4 with
          | some (y, []) => checkDate y m d
          | _ => none))

/-- The four formats of `validate_date`, tried in source order:
`%Y-%m-%d`, `%m/%d/%Y`, `%m-%d-%Y`, `%Y/%m/%d`. -/
def parseDateL (cs : List Char) : Option (Nat × Nat × Nat) :=
  match runYfirst '-' cs with
  | some t => some t
  | none =>
    match runYlast '/' cs with
    | some t => some t
    | none =>
      match runYlast '-' cs with
      | some t => some t
      | none => runYfirst '/' cs

/-- Zero-padded two-digit rendering (`strftime` `%m`/`%d`). -/
def pad2 (n : Nat) : List Char := [Nat.digitChar (n / 10), Nat.digitChar (n % 10)]

/-- Zero-padded four-digit rendering (`strftime` `%Y`). -/
def pad4 (n : Nat) : List Char :=
  [Nat.digitChar (n / 1000), Nat.digitChar (n / 100 % 10),
   Nat.digitChar (n / 10 % 10), Nat.digitChar (n % 10)]

/-- `parsed_date.strftime('%Y-%m-%d')` as a char list. -/
def dateFmtL (y m d : Nat) : List Char :=
  pad4 y ++ '-' :: (pad2 m ++ '-' :: pad2 d)

/-- `parsed_date.strftime('%Y-%m-%d')`. -/
def dateFmt (y m d : Nat) : String := String.mk (dateFmtL y m d)

/-- `Validator.validate_date` (`validation.py` lines 77-102). -/
def validate_date (date_str : String) : Except String String :=
  if date_str = "" then .error ("Date must be a non-empty string")
  else
    match parseDateL date_str.toList with
    | some (y, m, d) => .ok (dateFmt y m d)
    | none =>
      .error ("Invalid date format: " ++ (date_str ++ ". Use YYYY-MM-DD format"))

/-- Cumulative day count of the months before month `m` in a common year. -/
def monthsCum (m : Nat) : Nat :=
  match m with
  | 1 => 0 | 2 => 31 | 3 => 59 | 4 => 90 | 5 => 120 | 6 => 151 | 7 => 181
  | 8 => 212 | 9 => 243 | 10 => 273 | 11 => 304 | 12 => 334 | _ => 0

/-- Proleptic-Gregorian ordinal of a date (Python `date.toordinal`);
models `datetime` comparison and `timedelta.days` subtraction. -/
def dateOrd (y m d : Nat) : Nat :=
  365 * (y - 1) + (y - 1) / 4 - (y - 1) / 100 + (y - 1) / 400 +
    monthsCum m + (if 2 < m ∧ isLeap y then 1 else 0) + d

/-- `Validator.validate_date_range` (`validation.py` lines 104-119).
The code re-parses the two normalized strings with `%Y-%m-%d`
(`strptime` there cannot fail; the `.error "ValueError"` branch is dead,
see `parse_dateFmt_roundtrip`), compares the datetimes, and bounds the
difference in days by `365 * 5`. -/
def validate_date_range (start_date end_date : String) :
    Except String (String × String) :=
  match validate_date start_date with
  | .error e => .error e
  | .ok start =>
    match validate_date end_date with
    | .error e => .error e
    | .ok end_ =>
      match runYfirst '-' start.toList, runYfirst '-' end_.toList with
      | some (ys, ms, ds), some (ye, me, de) =>
        if dateOrd ye me de ≤ dateOrd ys ms ds then
          .error ("Start date must be before end date")
        else if 365 * 5 < dateOrd ye me de - dateOrd ys ms ds then
          .error ("Date range cannot exceed 5 years")
        else .ok (start, end_)
      | _, _ => .error ("ValueError")

/-! ## ChartProcessor (`utils/chart_display/chart_processor.py`)

`re.search` is modelled as a left-to-right scan over the character list;
at each start position the pattern is tried with the backtracking
semantics of the Python `re` engine (`.` never matches a newline). -/

/-- The record built by `ChartProcessor.extract_chart_data`. -/
structure ChartData where
  type : String
  title : String
  image_data : String
  tabular_data : List String
  insights : List String
  raw_output : String
deriving DecidableEq

/-- Does the title pattern `# (.+)` of `re.search(r'# (.+)', output)`
match at the head of `cs`: `'#'`, then `' '`, then at least one
non-newline character. -/
def titleMatchAtHead (cs : List Char) : Bool :=
  match cs with
  | '#' :: ' ' :: c :: _ => c ≠ '\n'
  | _ => false

/-- First match of `re.search(r'# (.+)', output)`: scan left to right
for the title pattern; the greedy group is the rest of the line from
two characters past the match position. -/
def titleFind : List Char → Option (List Char)
  | [] => none
  | c :: rest =>
    if titleMatchAtHead (c :: rest) then
      some (((c :: rest).drop 2).takeWhile (fun x => x ≠ '\n'))
    else titleFind rest

/-- The literal part `](data:image/png;base64,` of the image pattern. -/
def imgMarker : List Char := "](data:image/png;base64,".toList

/-- Try the rest of the image pattern at the current position of the
lazy group: the literal `](data:image/png;base64,`, then a nonempty
greedy `[^)]+` group, then `)`. -/
def imgTryHere (cs : List Char) : Option (List Char) :=
  if prefixOfL imgMarker cs then
    let after := cs.drop imgMarker.length
    let payload := after.takeWhile (fun c => c ≠ ')')
    if payload ≠ [] ∧ prefixOfL [')'] (after.drop payload.length) then
      some payload
    else none
  else none

/-- After `![`, the lazy group `.*?` expands (never over a newline)
until the rest of the pattern matches; mirrors `re` backtracking for
`!\[.*?\]\(data:image/png;base64,([^)]+)\)`. -/
def imgTail : List Char → Option (List Char)
  | [] => none
  | c :: rest =>
    match imgTryHere (c :: rest) with
    | some p => some p
    | none => if c = '\n' then none else imgTail rest

/-- Try the image pattern at the head of `cs`: the literal `![`,
then the backtracking tail `imgTail`. -/
def imgHeadMatch (cs : List Char) : Option (List Char) :=
  match cs with
  | '!' :: '[' :: t => imgTail t
  | _ => none

/-- First match of
`re.search(r'!\[.*?\]\(data:image/png;base64,([^)]+)\)', output)`,
returning the captured base64 payload. -/
def imgFind : List Char → Option (List Char)
  | [] => none
  | c :: rest =>
    match imgHeadMatch (c :: rest) with
    | some p => some p
    | none => imgFind rest

/-- `ChartProcessor.extract_chart_data` (`chart_processor.py` lines
27-63): title and image by regex search, then a single line scan
classifying insight lines (category glyphs `📊`/`🎯`/`⚡`, dash
continuations once a category has been seen) and pipe table rows. -/
def extract_chart_data (output : String) (chart_type : String) : ChartData :=
  let title :=
    match titleFind output.toList with
    | some g => String.mk g
    | none => ""
  let image_data :=
    match imgFind output.toList with
    | some p => String.mk p
    | none => ""
  let step := fun (st : Bool × List String × List String) (rawLine : String) =>
    let hasSection := st.1
    let ins := st.2.1
    let tab := st.2.2
    let line := pyStrip rawLine
    if pyStartsWith line "📊" || pyStartsWith line "🎯" || pyStartsWith line "⚡" then
      (true, ins ++ [line], tab)
    else if pyStartsWith line "-" && hasSection then
      (hasSection, ins ++ [line], tab)
    else if strContains line "|" && !(pyStartsWith line "#") then
      (hasSection, ins, tab ++ [line])
    else (hasSection, ins, tab)
  let scanned := (pySplit output '\n').foldl step (false, [], [])
  { type := chart_type
    title := title
    image_data := image_data
    tabular_data := scanned.2.2
    insights := scanned.2.1
    raw_output := output }

/-- Is `cs` a digit-headed match of `\d+ Spray Chart` (greedy digits then
the literal). -/
def sprayAfterDash (cs : List Char) : Bool :=
  let ds := cs.takeWhile (fun c => '0' ≤ c && c ≤ '9')
  !ds.isEmpty && prefixOfL (" Spray Chart".toList) (cs.drop ds.length)

/-- Scan for the ` - ` separator of `# (.+) - (\d+) Spray Chart` with at
least `midLen ≥ 1` group characters before it and no newline crossed. -/
def spraySeekDash (cs : List Char) (midLen : Nat) : Bool :=
  match cs with
  | [] => false
  | c :: rest =>
    if c = '\n' then false
    else
      (decide (1 ≤ midLen) && prefixOfL [' ', '-', ' '] (c :: rest) &&
        sprayAfterDash ((c :: rest).drop 3)) ||
      spraySeekDash rest (midLen + 1)

/-- `re.search(r'# (.+) - (\d+) Spray Chart', output)` as a Bool. -/
def spraySearch : List Char → Bool
  | [] => false
  | c :: rest =>
    (prefixOfL ['#', ' '] (c :: rest) && spraySeekDash ((c :: rest).drop 2) 0) ||
    spraySearch rest

/-- After `# ` of the comparison pattern: `(\d+) (Batting|Pitching)
Comparison`. -/
def compAfterHash (cs : List Char) : Bool :=
  let ds := cs.takeWhile (fun c => '0' ≤ c && c ≤ '9')
  !ds.isEmpty &&
    (prefixOfL (" Batting Comparison".toList) (cs.drop ds.length) ||
     prefixOfL (" Pitching Comparison".toList) (cs.drop ds.length))

/-- `re.search(r'# (\d+) (Batting|Pitching) Comparison', output)`. -/
def compSearch : List Char → Bool
  | [] => false
  | c :: rest =>
    (prefixOfL ['#', ' '] (c :: rest) && compAfterHash ((c :: rest).drop 2)) ||
    compSearch rest

/-- `ChartProcessor.detect_chart_type` (`chart_processor.py` lines
14-25): the `chart_patterns` dict iterates in insertion order, so the
spray-chart pattern is tried before the comparison pattern and the first
match wins. -/
def detect_chart_type (output : String) : Option String :=
  if spraySearch output.toList then some ("spray_chart")
  else if compSearch output.toList then some ("comparison_chart")
  else none

/-- Refinement-side reading of claim C6's hypothesis, following the
claim's words: the first line of the text that starts with `'# '`. -/
def firstHashHeadingLine (s : String) : Option String :=
  (pySplit s '\n').find? (fun l => pyStartsWith l "# ")

/-! ## ArtifactCreator (`utils/chart_display/artifact_creator.py`)

The f-string HTML templates are transcribed literally (CSS braces are the
doubled braces of the Python source; `\x7b`/`\x7d` denote literal braces
and `\x27` a literal single quote).  Each template is split into chunks
exactly at the interpolation points and at the placeholder substrings
named by the specification, so the concatenation below is the `.strip()`
of the Python template. -/

/-- The artifact dictionary returned by `create_chart_artifact`. -/
structure Artifact where
  type : String
  id : String
  title : String
  content : String
  artifact_type : String
deriving DecidableEq

/-- Python insertion-ordered dict assignment `metrics[k] = v`
(update in place, else append). -/
def setKV (l : List (String × String)) (k v : String) : List (String × String) :=
  if l.any (fun p => p.1 = k) then l.map (fun p => if p.1 = k then (k, v) else p)
  else l ++ [(k, v)]

/-- `_extract_summary_metrics` (`artifact_creator.py` lines 266-301). -/
def extract_summary_metrics (chart_data : ChartData) : List (String × String) :=
  chart_data.insights.foldl (fun metrics insight0 =>
    let insight := pyStrip insight0
    if strContains insight "Total Hits" then
      setKV metrics "Total Hits"
        (pyReplace (pyStrip (List.getLastD (pySplit insight ':') "")) "*" "")
    else if pyStartsWith insight "- " && strContains insight ":" &&
        strContains insight "%" then
      let parts := pySplit (pyReplace insight "- " "") ':'
      if parts.length = 2 then
        setKV metrics (pyStrip (parts.getD 0 "")) (pyStrip (parts.getD 1 ""))
      else metrics
    else if strContains insight "Field:" && strContains insight "%" then
      let parts := pySplit (pyReplace insight "- " "") ':'
      if parts.length = 2 then
        setKV metrics (pyStrip (parts.getD 0 "")) (pyStrip (parts.getD 1 ""))
      else metrics
    else if strContains insight "Average:" && strContains insight "mph" then
      setKV metrics "Avg Exit Velocity" (pyStrip (List.getLastD (pySplit insight ':') ""))
    else metrics) []

/-- One metric card of `_format_summary_metrics`. -/
def metricDiv (label value : String) : String :=
  "\n            <div class=\"metric\">\n                <span class=\"metric-label\">" ++
  (label ++ (":</span><br>\n                <span class=\"metric-value\">" ++
  (value ++ "</span>\n            </div>\n        ")))

/-- Opening of the no-summary placeholder `div` of
`_format_summary_metrics`. -/
def noSummaryPre : String :=
  "<div style=\x27color: #6c757d; text-align: center;\x27>"

/-- `_format_summary_metrics` (`artifact_creator.py` lines 304-319). -/
def format_summary_metrics (metrics : List (String × String)) : String :=
  if metrics.isEmpty then
    noSummaryPre ++ ("No summary data available" ++ "</div>")
  else String.join (metrics.map (fun p => metricDiv p.1 p.2))

/-- `_format_insights_list` (`artifact_creator.py` lines 322-342).  The
glyph literals are the mojibake byte sequences present in that file. -/
def format_insights_list (insights : List String) : String :=
  if insights.isEmpty then "<li>" ++ ("No insights available" ++ "</li>")
  else String.join (insights.map (fun insight0 =>
    let insight := pyStrip insight0
    if pyStartsWith insight "ðŸ“Š" || pyStartsWith insight "ðŸŽ¯" ||
        pyStartsWith insight "âš¡" then
      "<li class=\"category\">" ++
        ((pyReplace (pyReplace insight "**" "") "*" "") ++ "</li>")
    else if pyStartsWith insight "- " then
      "<li>" ++ ((pyReplace insight "- " "") ++ "</li>")
    else if insight ≠ "" then "<li>" ++ (insight ++ "</li>")
    else ""))

/-- Compact template, from after `<!DOCTYPE html>` to the `<title>`
interpolation. -/
def compactPre1 : String := "
<html>
<head>
    <meta charset=\"UTF-8\">
    <meta name=\"viewport\" content=\"width=device-width, initial-scale=1.0\">
    <title>"

/-- Compact template, from after the `<title>` interpolation to the
header-title interpolation. -/
def compactPre2 : String := "</title>
    <style>
        body \x7b
            font-family: -apple-system, BlinkMacSystemFont, \x27Segoe UI\x27, Roboto, sans-serif;
            margin: 0;
            padding: 15px;
            background-color: #ffffff;
            font-size: 14px;
        \x7d
        .chart-container \x7b
            max-width: 500px;
            border: 2px solid #e1e5e9;
            border-radius: 12px;
            overflow: hidden;
            background: white;
            box-shadow: 0 3px 12px rgba(0,0,0,0.15);
        \x7d
        .header \x7b
            background: linear-gradient(135deg, #667eea 0%, #764ba2 100%);
            color: white;
            padding: 12px 16px;
            font-weight: bold;
            font-size: 16px;
        \x7d
        .content \x7b
            padding: 16px;
        \x7d
        .chart-and-data \x7b
            display: flex;
            gap: 12px;
            align-items: flex-start;
        \x7d
        .chart-image \x7b
            flex: 1.2;
            max-width: 250px;
        \x7d
        .chart-image img \x7b
            width: 100%;
            height: auto;
            border-radius: 6px;
            border: 1px solid #ddd;
        \x7d
        .summary-data \x7b
            flex: 1;
            font-size: 12px;
            line-height: 1.4;
        \x7d
        .metric \x7b
            margin-bottom: 6px;
            padding: 4px 8px;
            background: #f8f9fa;
            border-radius: 4px;
            border-left: 3px solid #667eea;
        \x7d
        .metric-label \x7b
            font-weight: bold;
            color: #495057;
        \x7d
        .metric-value \x7b
            color: #6c757d;
        \x7d
        @media (max-width: 400px) \x7b
            .chart-and-data \x7b
                flex-direction: column;
            \x7d
            .chart-image \x7b
                max-width: 100%;
            \x7d
        \x7d
    </style>
</head>
<body>
    <div class=\"chart-container\">
        <div class=\"header\">
            "

/-- Compact template, between the header title and the image slot. -/
def compactPre3 : String := "
        </div>
        <div class=\"content\">
            <div class=\"chart-and-data\">
                <div class=\"chart-image\">
                    "

/-- Opening of the compact inline image tag. -/
def compactImgA : String := "<img src=\x27data:image/png;base64,"

/-- Closing of the compact inline image tag. -/
def compactImgB : String := "\x27 alt=\x27Chart\x27/>"

/-- Opening of the compact no-image placeholder `div`. -/
def compactNoChart : String :=
  "<div style=\x27padding: 20px; text-align: center; color: #6c757d;\x27>"

/-- Compact template, between the image slot and the summary slot. -/
def compactMid : String := "
                </div>
                <div class=\"summary-data\">
                    "

/-- Compact template, from after the summary slot to `</html>`. -/
def compactPost : String := "
                </div>
            </div>
        </div>
    </div>
</body>
"

/-- `_create_compact_artifact_content` (`artifact_creator.py` lines
41-143): the stripped f-string template with its three interpolations
(`chart_data` always carries a title here, so the `.get` defaults do not
fire). -/
def create_compact_artifact_content (chart_data : ChartData) : String :=
  let summary_data := extract_summary_metrics chart_data
  "<!DOCTYPE html>" ++ (compactPre1 ++ (chart_data.title ++ (compactPre2 ++
    (chart_data.title ++ (compactPre3 ++
    ((if chart_data.image_data ≠ "" then
        compactImgA ++ (chart_data.image_data ++ compactImgB)
      else compactNoChart ++ ("No chart available" ++ "</div>")) ++
    (compactMid ++ (format_summary_metrics summary_data ++
    (compactPost ++ "</html>")))))))))

/-- Full template, from after `<!DOCTYPE html>` to the `<title>`
interpolation. -/
def fullPre1 : String := "
<html>
<head>
    <meta charset=\"UTF-8\">
    <meta name=\"viewport\" content=\"width=device-width, initial-scale=1.0\">
    <title>"

/-- Full template, from after the `<title>` interpolation to the `<h1>`
title interpolation. -/
def fullPre2 : String := "</title>
    <style>
        body \x7b
            font-family: -apple-system, BlinkMacSystemFont, \x27Segoe UI\x27, Roboto, sans-serif;
            margin: 0;
            padding: 20px;
            background-color: #f8f9fa;
        \x7d
        .container \x7b
            max-width: 1000px;
            margin: 0 auto;
            background: white;
            border-radius: 12px;
            box-shadow: 0 4px 20px rgba(0,0,0,0.1);
            overflow: hidden;
        \x7d
        .header \x7b
            background: linear-gradient(135deg, #667eea 0%, #764ba2 100%);
            color: white;
            padding: 24px;
            text-align: center;
        \x7d
        .header h1 \x7b
            margin: 0;
            font-size: 24px;
            font-weight: bold;
        \x7d
        .content \x7b
            display: grid;
            grid-template-columns: 2fr 1fr;
            gap: 24px;
            padding: 24px;
        \x7d
        .chart-section \x7b
            background: #f8f9fa;
            padding: 20px;
            border-radius: 8px;
            border: 1px solid #e9ecef;
        \x7d
        .chart-section h2 \x7b
            margin: 0 0 16px 0;
            color: #495057;
            font-size: 18px;
        \x7d
        .chart-image \x7b
            width: 100%;
            height: auto;
            border-radius: 8px;
            border: 1px solid #dee2e6;
        \x7d
        .data-section \x7b
            background: #ffffff;
            padding: 20px;
            border-radius: 8px;
            border: 1px solid #e9ecef;
        \x7d
        .data-section h2 \x7b
            margin: 0 0 16px 0;
            color: #495057;
            font-size: 18px;
        \x7d
        .insights \x7b
            list-style: none;
            padding: 0;
            margin: 0;
        \x7d
        .insights li \x7b
            padding: 8px 12px;
            margin-bottom: 8px;
            background: #f8f9fa;
            border-radius: 6px;
            border-left: 4px solid #667eea;
            font-size: 14px;
            line-height: 1.4;
        \x7d
        .insights li.category \x7b
            background: #e3f2fd;
            border-left-color: #1976d2;
            font-weight: bold;
        \x7d
        @media (max-width: 768px) \x7b
            .content \x7b
                grid-template-columns: 1fr;
            \x7d
        \x7d
    </style>
</head>
<body>
    <div class=\"container\">
        <div class=\"header\">
            <h1>"

/-- Full template, between the `<h1>` title and the image slot. -/
def fullPre3 : String := "</h1>
        </div>
        <div class=\"content\">
            <div class=\"chart-section\">
                <h2>ðŸ“Š Visualization</h2>
                "

/-- Opening of the full inline image tag. -/
def fullImgA : String := "<img src=\x27data:image/png;base64,"

/-- Closing of the full inline image tag. -/
def fullImgB : String := "\x27 class=\x27chart-image\x27 alt=\x27Chart\x27/>"

/-- Full template, between the image slot and the insights slot. -/
def fullMid : String := "
            </div>
            <div class=\"data-section\">
                <h2>ðŸ“ˆ Analysis</h2>
                <ul class=\"insights\">
                    "

/-- Full template, from after the insights slot to `</html>`. -/
def fullPost : String := "
                </ul>
            </div>
        </div>
    </div>
</body>
"

/-- `_create_full_artifact_content` (`artifact_creator.py` lines
146-263). -/
def create_full_artifact_content (chart_data : ChartData) : String :=
  "<!DOCTYPE html>" ++ (fullPre1 ++ (chart_data.title ++ (fullPre2 ++
    (chart_data.title ++ (fullPre3 ++
    ((if chart_data.image_data ≠ "" then
        fullImgA ++ (chart_data.image_data ++ fullImgB)
      else "<p>" ++ ("No chart data available" ++ "</p>")) ++
    (fullMid ++ (format_insights_list chart_data.insights ++
    (fullPost ++ "</html>")))))))))

/-- `create_chart_artifact` (`artifact_creator.py` lines 9-38).
`uuidHex` stands for `uuid.uuid4().hex`, passed explicitly. -/
def create_chart_artifact (uuidHex : String) (chart_data : ChartData)
    (compact : Bool) : Artifact :=
  let artifact_id := "baseball_chart_" ++ uuidHex.take 8
  let content :=
    if compact then create_compact_artifact_content chart_data
    else create_full_artifact_content chart_data
  { type := "create"
    id := artifact_id
    title := chart_data.title
    content := content
    artifact_type := "text/html" }

/-! ## Tool handlers (`tools/stats_tools.py`, `tools/plotting_tools.py`)

Handlers are total functions returning the response string.  External
collaborators (pybaseball, pandas rendering, the plotting pipeline) are
passed as parameters: `upstream` is the result of `pyb.batting_stats`
(`Except.error` for a raised pybaseball exception), `toMd`/`insOf` are
the pandas markdown renderer and `create_summary_insights`, and
`pipeline` is the whole external flow of `create_spray_chart` after its
validation block.  The `try/except ValidationError` wrapper of each
handler becomes a `match` on the sequenced validations. -/

/-- The validation block of `get_batting_stats` (`stats_tools.py` lines
76-94): season, qual (bounds 0..700), then the league check. -/
def get_batting_stats_validate (current_year season : Int) (league : String)
    (qual : PyVal) : Except String (Int × PyVal × String) :=
  match validate_season current_year season with
  | .error e => .error e
  | .ok season' =>
    match validate_numeric_range qual (some 0) (some 700) "qual" with
    | .error e => .error e
    | .ok qual' =>
      let league' := pyLower league
      if ["all", "al", "nl"].contains league' then .ok (season', qual', league')
      else .error ("Invalid league. Valid options: all, al, nl")

/-- `get_batting_stats` (`stats_tools.py` lines 48-139). -/
def get_batting_stats (toMd : DataFrame → String)
    (insOf : DataFrame → String → String) (current_year season : Int)
    (split_seasons : Bool) (stat_columns league : String) (qual : PyVal)
    (upstream : Except String DataFrame) : String :=
  match get_batting_stats_validate current_year season league qual with
  | .error e => "❌ Validation Error: " ++ e
  | .ok (season', qual', _league') =>
    match upstream with
    | .error pyb_error =>
      "❌ Error fetching batting statistics from pybaseball: " ++ pyb_error
    | .ok df =>
      if df.isEmptyDf then
        "❌ No batting statistics found for " ++ (toString season' ++
          (" with qualifier " ++ (pyStr qual' ++ "+")))
      else
        let title := toString season' ++ (" Batting Statistics (Default Stats) - Min " ++
          (pyStr qual' ++ " PA"))
        let response := format_dataframe_as_markdown toMd df title
        let insights := insOf df (toString season' ++ (" season with " ++
          (pyStr qual' ++ "+ plate appearances")))
        let response := response ++ ("\n\n### Season Insights\n" ++ insights)
        let response := response ++
          "\n\n**About Default Stats**: Standard batting statistics including traditional metrics like AVG, OBP, SLG, HR, RBI, and advanced metrics like WAR."
        if stat_columns ≠ "standard" then
          response ++ ("\n\n*Note: Advanced stat type \x27" ++ (stat_columns ++
            "\x27 was requested but default columns are used in this version.*"))
        else response

/-- The validation block of `create_spray_chart` (`plotting_tools.py`
lines 62-71): name, season, game-type and chart-type checks. -/
def create_spray_chart_validate (current_year : Int) (player_name : String)
    (season : Int) (game_type chart_type : String) :
    Except String (String × Int) :=
  match validate_player_name player_name with
  | .error e => .error e
  | .ok clean_name =>
    match validate_season current_year season with
    | .error e => .error e
    | .ok season' =>
      if !(["regular", "postseason", "all"].contains game_type) then
        .error ("Invalid game_type. Valid options: regular, postseason, all")
      else if !(["standard", "heat_map", "overlay"].contains chart_type) then
        .error ("Invalid chart_type. Valid options: standard, heat_map, overlay")
      else .ok (clean_name, season')

/-- `create_spray_chart` (`plotting_tools.py` lines 36-158).  The
failure indicator `âŒ` is the mojibake byte sequence present in that
file.  `pipeline` abstracts lines 73-152 (player lookup, Statcast fetch,
plotting, artifact creation), which run only after validation passes. -/
def create_spray_chart (current_year : Int) (player_name : String) (season : Int)
    (game_type chart_type : String) (pipeline : String → Int → String → String) :
    String :=
  match create_spray_chart_validate current_year player_name season game_type chart_type with
  | .error e => "âŒ Validation Error: " ++ e
  | .ok (clean_name, season') => pipeline clean_name season' chart_type

/-- Decidable equality for `Except` results (missing from core). -/
instance exceptDecEq {e a : Type} [DecidableEq e] [DecidableEq a] :
    DecidableEq (Except e a) := fun x y =>
  match x, y with
  | .ok u, .ok v => if h : u = v then isTrue (by rw [h]) else isFalse (by simp [h])
  | .error u, .error v => if h : u = v then isTrue (by rw [h]) else isFalse (by simp [h])
  | .ok _, .error _ => isFalse (by simp)
  | .error _, .ok _ => isFalse (by simp)

/-! ## Helper lemmas -/

theorem strAppendAssoc (a b c : String) : a ++ b ++ c = a ++ (b ++ c) := by
  apply String.ext
  simp [String.data_append, List.append_assoc]

/-! ## Claims -/

/-- C4: for every integer `y` with `1871 <= y <= current_year + 1`,
`validate_season y` returns `y` unchanged; for every integer outside
that range it raises `ValidationError` (modelled as `Except.error`,
i.e. `toOption = none`). -/
theorem validate_season_spec (current_year season : Int) :
    (validate_season current_year season).toOption =
      (if 1871 ≤ season ∧ season ≤ current_year + 1 then some season else none) := by
  unfold validate_season
  split_ifs with h1 h2 h3 <;> simp_all [Except.toOption] <;> omega

theorem strAppendEmpty (s : String) : s ++ "" = s := by
  apply String.ext
  simp [String.data_append]

/-- C5: every string whose uppercased, stripped form is in the 30-team
set is mapped by `validate_team` to that uppercase code, and every other
string raises (`toOption = none`).  Instantiating at `"bos"` gives
`validate_team "bos" = .ok "BOS"`. -/
theorem validate_team_spec (team : String) :
    (validate_team team).toOption =
      (if valid_teams.contains (pyStrip (pyUpper team)) then
        some (pyStrip (pyUpper team)) else none) := by
  by_cases h : team = ""
  · subst h; decide
  · unfold validate_team
    simp only [if_neg h]
    split_ifs with h2 <;> simp [Except.toOption]

/-- C8: `format_dataframe_as_markdown` on an empty table returns exactly
the sentinel string: two hash marks, a space, the title, a blank line
and `No data available.`. -/
theorem format_dataframe_empty_sentinel (toMd : DataFrame → String)
    (df : DataFrame) (title : String) (h : df.isEmptyDf = true) :
    format_dataframe_as_markdown toMd df title =
      "## " ++ (title ++ "\n\nNo data available.") := by
  unfold format_dataframe_as_markdown
  simp [h]

theorem format_dataframe_empty_sentinel_witness :
    format_dataframe_as_markdown (fun _ => "") { cols := [], rows := [] }
        "2024 Batting Statistics" =
      "## " ++ ("2024 Batting Statistics" ++ "\n\nNo data available.") :=
  format_dataframe_empty_sentinel (fun _ => "") { cols := [], rows := [] }
    "2024 Batting Statistics" rfl

/-- C9: every value accepted by `validate_numeric_range` comes back
tagged as a float; an accepted integer comes back as the equal float,
not unchanged; and rendering that float prints a decimal point
(`50` renders as `"50.0"`). -/
theorem validate_numeric_range_returns_float (v : PyVal) (mn mx : Option Rat)
    (pn : String) (r : PyVal) (n : Int) :
    (validate_numeric_range v mn mx pn = .ok r → ∃ q : Rat, r = PyVal.float q) ∧
    (validate_numeric_range (PyVal.int n) mn mx pn = .ok r →
      r = PyVal.float (n : Rat)) ∧
    pyStr (PyVal.float ((50 : Int) : Rat)) = "50.0" := by
  refine ⟨?_, ?_, by decide⟩
  · intro h
    unfold validate_numeric_range at h
    rcases hv : pyFloat v with _ | q <;> rw [hv] at h
    · simp at h
    · rcases mn with _ | m <;> rcases mx with _ | mx' <;>
        simp only [] at h <;>
        (first
          | (split_ifs at h <;> simp_all)
          | simp_all) <;>
        exact ⟨q, h.symm⟩
  · intro h
    unfold validate_numeric_range at h
    have hv : pyFloat (PyVal.int n) = some (n : Rat) := rfl
    rw [hv] at h
    rcases mn with _ | m <;> rcases mx with _ | mx' <;>
      simp only [] at h <;>
      (first
        | (split_ifs at h <;> simp_all)
        | simp_all) <;>
      exact h.symm

theorem validate_numeric_range_returns_float_witness :
    (∃ q : Rat, PyVal.float ((50 : Int) : Rat) = PyVal.float q) ∧
    PyVal.float ((50 : Int) : Rat) = PyVal.float ((50 : Int) : Rat) ∧
    pyStr (PyVal.float ((50 : Int) : Rat)) = "50.0" :=
  ⟨(validate_numeric_range_returns_float (PyVal.int 50) (some 0) (some 700)
      "qual" (PyVal.float ((50 : Int) : Rat)) 50).1 (by decide),
   (validate_numeric_range_returns_float (PyVal.int 50) (some 0) (some 700)
      "qual" (PyVal.float ((50 : Int) : Rat)) 50).2.1 (by decide),
   (validate_numeric_range_returns_float (PyVal.int 50) (some 0) (some 700)
      "qual" (PyVal.float ((50 : Int) : Rat)) 50).2.2⟩

/-- C10: on a text matching both title patterns, `detect_chart_type`
returns `spray_chart` — the patterns are tried in dict insertion order
with `spray_chart` first, and the first match wins. -/
theorem detect_chart_type_order (t : String)
    (h1 : spraySearch t.toList = true) (h2 : compSearch t.toList = true) :
    detect_chart_type t = some "spray_chart" := by
  unfold detect_chart_type
  exact if_pos h1

theorem detect_chart_type_order_witness :
    spraySearch ("# 2020 Batting Comparison\n# A - 2020 Spray Chart").toList = true ∧
    compSearch ("# 2020 Batting Comparison\n# A - 2020 Spray Chart").toList = true ∧
    detect_chart_type ("# 2020 Batting Comparison\n# A - 2020 Spray Chart") =
      some "spray_chart" :=
  ⟨by decide, by decide,
   detect_chart_type_order ("# 2020 Batting Comparison\n# A - 2020 Spray Chart")
     (by decide) (by decide)⟩

/-- C7: whenever validation fails, the two modelled handlers catch the
`ValidationError` and return a string beginning with their failure
indicator and containing the validation message verbatim; the handlers
are total Lean functions, so the exception never escapes. -/
theorem handlers_catch_validation_errors
    (toMd : DataFrame → String) (insOf : DataFrame → String → String)
    (current_year season : Int) (split_seasons : Bool)
    (stat_columns league : String) (qual : PyVal)
    (upstream : Except String DataFrame) (player_name : String)
    (season2 : Int) (game_type chart_type : String)
    (pipeline : String → Int → String → String) (e e2 : String) :
    (get_batting_stats_validate current_year season league qual = .error e →
      get_batting_stats toMd insOf current_year season split_seasons stat_columns
          league qual upstream = "❌ Validation Error: " ++ e ∧
      strStarts (get_batting_stats toMd insOf current_year season split_seasons
          stat_columns league qual upstream) "❌" ∧
      strHas (get_batting_stats toMd insOf current_year season split_seasons
          stat_columns league qual upstream) e) ∧
    (create_spray_chart_validate current_year player_name season2 game_type
        chart_type = .error e2 →
      create_spray_chart current_year player_name season2 game_type chart_type
          pipeline = "âŒ Validation Error: " ++ e2 ∧
      strStarts (create_spray_chart current_year player_name season2 game_type
          chart_type pipeline) "âŒ" ∧
      strHas (create_spray_chart current_year player_name season2 game_type
          chart_type pipeline) e2) := by
  constructor
  · intro h
    have hb : get_batting_stats toMd insOf current_year season split_seasons
        stat_columns league qual upstream = "❌ Validation Error: " ++ e := by
      unfold get_batting_stats
      rw [h]
    refine ⟨hb, ?_, ?_⟩
    · refine ⟨" Validation Error: " ++ e, ?_⟩
      rw [hb, show ("❌ Validation Error: " : String) =
        "❌" ++ " Validation Error: " by decide, strAppendAssoc]
    · refine ⟨"❌ Validation Error: ", "", ?_⟩
      rw [hb, strAppendEmpty]
  · intro h
    have hs : create_spray_chart current_year player_name season2 game_type
        chart_type pipeline = "âŒ Validation Error: " ++ e2 := by
      unfold create_spray_chart
      rw [h]
    refine ⟨hs, ?_, ?_⟩
    · refine ⟨" Validation Error: " ++ e2, ?_⟩
      rw [hs, show ("âŒ Validation Error: " : String) =
        "âŒ" ++ " Validation Error: " by decide, strAppendAssoc]
    · refine ⟨"âŒ Validation Error: ", "", ?_⟩
      rw [hs, strAppendEmpty]

theorem handlers_catch_validation_errors_witness :
    get_batting_stats (fun _ => "") (fun _ _ => "") 2025 1800 true "standard"
        "all" (PyVal.int 50) (Except.ok { cols := [], rows := [] }) =
      "❌ Validation Error: " ++ "Season cannot be before 1871" ∧
    create_spray_chart 2025 "" 2024 "regular" "standard" (fun _ _ _ => "") =
      "âŒ Validation Error: " ++ "Player name must be a non-empty string" :=
  ⟨((handlers_catch_validation_errors (fun _ => "") (fun _ _ => "") 2025 1800
      true "standard" "all" (PyVal.int 50)
      (Except.ok { cols := [], rows := [] }) "" 2024 "regular" "standard"
      (fun _ _ _ => "") "Season cannot be before 1871"
      "Player name must be a non-empty string").1 (by decide)).1,
   ((handlers_catch_validation_errors (fun _ => "") (fun _ _ => "") 2025 1800
      true "standard" "all" (PyVal.int 50)
      (Except.ok { cols := [], rows := [] }) "" 2024 "regular" "standard"
      (fun _ _ _ => "") "Season cannot be before 1871"
      "Player name must be a non-empty string").2 (by decide)).1⟩

/-- C3: on a ChartData with empty `image_data` and empty `insights`,
`create_chart_artifact` (a total function, so it cannot raise) returns,
in both compact and full mode, an artifact whose content is a complete
HTML document (starts with `<!DOCTYPE html>`, ends with `</html>`)
containing the configured placeholder text for the missing image
(`No chart available` / `No chart data available`) and for the missing
summary metrics / insights (`No summary data available` /
`No insights available`). -/
theorem create_chart_artifact_degrades_gracefully
    (uuidHex ty title raw : String) (tab : List String) :
    let cd : ChartData := ⟨ty, title, "", tab, [], raw⟩
    (strStarts ((create_chart_artifact uuidHex cd true).content) "<!DOCTYPE html>" ∧
     strEnds ((create_chart_artifact uuidHex cd true).content) "</html>" ∧
     strHas ((create_chart_artifact uuidHex cd true).content) "No chart available" ∧
     strHas ((create_chart_artifact uuidHex cd true).content) "No summary data available") ∧
    (strStarts ((create_chart_artifact uuidHex cd false).content) "<!DOCTYPE html>" ∧
     strEnds ((create_chart_artifact uuidHex cd false).content) "</html>" ∧
     strHas ((create_chart_artifact uuidHex cd false).content) "No chart data available" ∧
     strHas ((create_chart_artifact uuidHex cd false).content) "No insights available") := by
  intro cd
  have hcompact : (create_chart_artifact uuidHex cd true).content =
      "<!DOCTYPE html>" ++ (compactPre1 ++ (title ++ (compactPre2 ++ (title ++
        (compactPre3 ++ ((compactNoChart ++ ("No chart available" ++ "</div>")) ++
        (compactMid ++ ((noSummaryPre ++ ("No summary data available" ++ "</div>")) ++
        (compactPost ++ "</html>"))))))))) := by
    simp [create_chart_artifact, create_compact_artifact_content,
      extract_summary_metrics, format_summary_metrics, cd]
  have hfull : (create_chart_artifact uuidHex cd false).content =
      "<!DOCTYPE html>" ++ (fullPre1 ++ (title ++ (fullPre2 ++ (title ++
        (fullPre3 ++ (("<p>" ++ ("No chart data available" ++ "</p>")) ++
        (fullMid ++ (("<li>" ++ ("No insights available" ++ "</li>")) ++
        (fullPost ++ "</html>"))))))))) := by
    simp [create_chart_artifact, create_full_artifact_content,
      format_insights_list, cd]
  refine ⟨⟨⟨_, hcompact⟩, ?_, ?_, ?_⟩, ⟨_, hfull⟩, ?_, ?_, ?_⟩
  · refine ⟨"<!DOCTYPE html>" ++ compactPre1 ++ title ++ compactPre2 ++ title ++
      compactPre3 ++ compactNoChart ++ "No chart available" ++ "</div>" ++
      compactMid ++ noSummaryPre ++ "No summary data available" ++ "</div>" ++
      compactPost, ?_⟩
    rw [hcompact]
    apply String.ext
    simp [String.data_append, List.append_assoc]
  · refine ⟨"<!DOCTYPE html>" ++ compactPre1 ++ title ++ compactPre2 ++ title ++
      compactPre3 ++ compactNoChart,
      "</div>" ++ compactMid ++ noSummaryPre ++ "No summary data available" ++
      "</div>" ++ compactPost ++ "</html>", ?_⟩
    rw [hcompact]
    apply String.ext
    simp [String.data_append, List.append_assoc]
  · refine ⟨"<!DOCTYPE html>" ++ compactPre1 ++ title ++ compactPre2 ++ title ++
      compactPre3 ++ compactNoChart ++ "No chart available" ++ "</div>" ++
      compactMid ++ noSummaryPre,
      "</div>" ++ compactPost ++ "</html>", ?_⟩
    rw [hcompact]
    apply String.ext
    simp [String.data_append, List.append_assoc]
  · refine ⟨"<!DOCTYPE html>" ++ fullPre1 ++ title ++ fullPre2 ++ title ++
      fullPre3 ++ "<p>" ++ "No chart data available" ++ "</p>" ++ fullMid ++
      "<li>" ++ "No insights available" ++ "</li>" ++ fullPost, ?_⟩
    rw [hfull]
    apply String.ext
    simp [String.data_append, List.append_assoc]
  · refine ⟨"<!DOCTYPE html>" ++ fullPre1 ++ title ++ fullPre2 ++ title ++
      fullPre3 ++ "<p>",
      "</p>" ++ fullMid ++ "<li>" ++ "No insights available" ++ "</li>" ++
      fullPost ++ "</html>", ?_⟩
    rw [hfull]
    apply String.ext
    simp [String.data_append, List.append_assoc]
  · refine ⟨"<!DOCTYPE html>" ++ fullPre1 ++ title ++ fullPre2 ++ title ++
      fullPre3 ++ "<p>" ++ "No chart data available" ++ "</p>" ++ fullMid ++
      "<li>",
      "</li>" ++ fullPost ++ "</html>", ?_⟩
    rw [hfull]
    apply String.ext
    simp [String.data_append, List.append_assoc]

/-- C1 counterexample: with `qual=50`, `season=2024` and an empty
upstream table, the handler's message reads `... qualifier 50.0+`
(because validation coerces `qual` to a float), so the claimed literal
substring `"No batting statistics found for 2024 with qualifier 50+"`
does not occur in the returned string. -/
theorem get_batting_stats_qualifier_counterexample :
    strContains
      (get_batting_stats (fun _ => "") (fun _ _ => "") 2025 2024 true "standard"
        "all" (PyVal.int 50) (Except.ok { cols := [], rows := [] }))
      "No batting statistics found for 2024 with qualifier 50+" = false := by
  decide

/-- C1 (amended): with `qual=50`, `season=2024` (any current year from
2023 on) and an empty upstream table, the returned string contains the
literal substring
`"No batting statistics found for 2024 with qualifier 50.0+"`. -/
theorem get_batting_stats_qualifier_amended (current_year : Int)
    (h : 2023 ≤ current_year) (toMd : DataFrame → String)
    (insOf : DataFrame → String → String) (split_seasons : Bool)
    (stat_columns : String) (df : DataFrame) (hdf : df.isEmptyDf = true) :
    strContains
      (get_batting_stats toMd insOf current_year 2024 split_seasons stat_columns
        "all" (PyVal.int 50) (Except.ok df))
      "No batting statistics found for 2024 with qualifier 50.0+" = true := by
  have hv : get_batting_stats_validate current_year 2024 "all" (PyVal.int 50) =
      .ok (2024, PyVal.float ((50 : Int) : Rat), "all") := by
    unfold get_batting_stats_validate validate_season
    rw [if_neg (by omega), if_neg (by omega)]
    rfl
  unfold get_batting_stats
  rw [hv]
  simp only [hdf]
  rw [if_pos trivial]
  decide

theorem get_batting_stats_qualifier_amended_witness :
    strContains
      (get_batting_stats (fun _ => "") (fun _ _ => "") 2025 2024 true "standard"
        "all" (PyVal.int 50) (Except.ok { cols := [], rows := [] }))
      "No batting statistics found for 2024 with qualifier 50.0+" = true :=
  get_batting_stats_qualifier_amended 2025 (by decide) (fun _ => "")
    (fun _ _ => "") true "standard" { cols := [], rows := [] } rfl

theorem takeWhileAppendAll (p : Char → Bool) (a b : List Char)
    (ha : ∀ c ∈ a, p c = true) :
    (a ++ b).takeWhile p = a ++ b.takeWhile p := by
  induction a with
  | nil => simp
  | cons c cs ih =>
    have hc : p c = true := ha c (List.mem_cons_self c cs)
    simp [List.takeWhile_cons, hc,
      ih (fun x hx => ha x (List.mem_cons_of_mem c hx))]

theorem prefixOfL_self_append (a x : List Char) : prefixOfL a (a ++ x) = true := by
  induction a with
  | nil => rfl
  | cons c cs ih => simp [prefixOfL, ih]

theorem imgTryHere_ne_nil (cs p : List Char) (h : imgTryHere cs = some p) :
    p ≠ [] := by
  simp only [imgTryHere] at h
  split_ifs at h with h1 h2
  · injection h with h3
    rw [← h3]
    exact h2.1
  all_goals simp at h

theorem imgTail_ne_nil : ∀ (cs p : List Char), imgTail cs = some p → p ≠ [] := by
  intro cs
  induction cs with
  | nil => intro p h; simp [imgTail] at h
  | cons c rest ih =>
    intro p h
    unfold imgTail at h
    cases htry : imgTryHere (c :: rest) with
    | some q =>
      rw [htry] at h
      injection h with h3
      rw [← h3]
      exact imgTryHere_ne_nil _ _ htry
    | none =>
      rw [htry] at h
      split_ifs at h with h3
      exact ih p h

theorem imgHeadMatch_ne_nil (cs p : List Char) (h : imgHeadMatch cs = some p) :
    p ≠ [] := by
  unfold imgHeadMatch at h
  split at h
  · exact imgTail_ne_nil _ _ h
  · simp at h

theorem imgFind_ne_nil : ∀ (cs p : List Char), imgFind cs = some p → p ≠ [] := by
  intro cs
  induction cs with
  | nil => intro p h; simp [imgFind] at h
  | cons c rest ih =>
    intro p h
    unfold imgFind at h
    cases hm : imgHeadMatch (c :: rest) with
    | some q =>
      rw [hm] at h
      injection h with h3
      rw [← h3]
      exact imgHeadMatch_ne_nil _ _ hm
    | none =>
      rw [hm] at h
      exact ih p h

theorem imgTryHere_at_marker (payload b : List Char) (hp1 : payload ≠ [])
    (hp2 : ∀ c ∈ payload, ¬(c = ')')) :
    imgTryHere (imgMarker ++ (payload ++ ')' :: b)) = some payload := by
  simp only [imgTryHere, prefixOfL_self_append, if_true, List.drop_left]
  have htw : (payload ++ ')' :: b).takeWhile (fun c => c ≠ ')') = payload := by
    rw [takeWhileAppendAll _ payload (')' :: b)
      (fun c hc => by simpa using hp2 c hc)]
    simp [List.takeWhile_cons]
  rw [htw, List.drop_left]
  simp [prefixOfL, hp1]

theorem imgTail_of_tryHere (cs p : List Char) (h : imgTryHere cs = some p) :
    imgTail cs = some p := by
  cases cs with
  | nil =>
    rw [show imgTryHere [] = none from by decide] at h
    simp at h
  | cons c rest =>
    unfold imgTail
    rw [h]

theorem imgTail_isSome (alt payload b : List Char)
    (halt : ∀ c ∈ alt, ¬(c = '\n')) (hp1 : payload ≠ [])
    (hp2 : ∀ c ∈ payload, ¬(c = ')')) :
    (imgTail (alt ++ (imgMarker ++ (payload ++ ')' :: b)))).isSome = true := by
  induction alt with
  | nil =>
    rw [List.nil_append, imgTail_of_tryHere _ _ (imgTryHere_at_marker payload b hp1 hp2)]
    rfl
  | cons c alt' ih =>
    rw [List.cons_append]
    unfold imgTail
    cases htry : imgTryHere (c :: (alt' ++ (imgMarker ++ (payload ++ ')' :: b)))) with
    | some q => simp
    | none =>
      have hc : ¬(c = '\n') := halt c (List.mem_cons_self _ _)
      simp only [hc, if_false]
      exact ih (fun x hx => halt x (List.mem_cons_of_mem c hx))

theorem imgFind_isSome_append (a t : List Char)
    (h : (imgHeadMatch t).isSome = true) :
    (imgFind (a ++ t)).isSome = true := by
  induction a with
  | nil =>
    rw [List.nil_append]
    cases t with
    | nil => simp [imgHeadMatch] at h
    | cons c rest =>
      unfold imgFind
      cases hm : imgHeadMatch (c :: rest) with
      | some p => simp
      | none => rw [hm] at h; simp at h
  | cons c a' ih =>
    rw [List.cons_append]
    unfold imgFind
    cases hm : imgHeadMatch (c :: (a' ++ t)) with
    | some p => simp
    | none => simpa using ih

theorem titleFind_append_skip (pl rest : List Char)
    (hpre : ∀ n, n < pl.length → titleMatchAtHead ((pl ++ rest).drop n) = false) :
    titleFind (pl ++ rest) = titleFind rest := by
  induction pl with
  | nil => rfl
  | cons c pl' ih =>
    have h0 : titleMatchAtHead (c :: (pl' ++ rest)) = false := by
      simpa using hpre 0 (by simp)
    have hpre' : ∀ n, n < pl'.length →
        titleMatchAtHead ((pl' ++ rest).drop n) = false := by
      intro n hn
      have := hpre (n + 1) (by simp only [List.length_cons]; omega)
      simpa using this
    calc titleFind ((c :: pl') ++ rest) = titleFind (c :: (pl' ++ rest)) := by
          rw [List.cons_append]
      _ = titleFind (pl' ++ rest) := by simp [titleFind, h0]
      _ = titleFind rest := ih hpre'

theorem titleFind_mike_trout_heading (s : List Char) :
    titleFind ("# Mike Trout - 2020 Spray Chart\n".toList ++ s) =
      some ("Mike Trout - 2020 Spray Chart".toList) := by
  rw [show ("# Mike Trout - 2020 Spray Chart\n".toList : List Char) =
      '#' :: ' ' :: ("Mike Trout - 2020 Spray Chart".toList ++ ['\n']) from by decide]
  rw [List.cons_append, List.cons_append, List.append_assoc]
  have hm : titleMatchAtHead ('#' :: ' ' ::
      ("Mike Trout - 2020 Spray Chart".toList ++ (['\n'] ++ s))) = true := by
    rw [show ("Mike Trout - 2020 Spray Chart".toList : List Char) =
      'M' :: "ike Trout - 2020 Spray Chart".toList from by decide]
    rfl
  unfold titleFind
  rw [if_pos hm]
  have htw : (("Mike Trout - 2020 Spray Chart".toList ++ (['\n'] ++ s)).takeWhile
      (fun x => x ≠ '\n')) = "Mike Trout - 2020 Spray Chart".toList := by
    rw [takeWhileAppendAll _ _ _ (by decide)]
    simp [List.takeWhile_cons]
  simp [htw]

/-- C6 (amended): if the first occurrence in the text of the title
pattern `# ` followed by a non-newline character is the one opening the
line `# Mike Trout - 2020 Spray Chart`, and the text embeds a markdown
image link with a nonempty base64 PNG payload, then `extract_chart_data`
returns title `"Mike Trout - 2020 Spray Chart"` and a nonempty
`image_data`. -/
theorem extract_chart_data_mike_trout (output ty : String) (pl suf : List Char)
    (hout : output.toList = pl ++ ("# Mike Trout - 2020 Spray Chart\n".toList ++ suf))
    (hpre : ∀ n, n < pl.length → titleMatchAtHead (output.toList.drop n) = false)
    (himg : ∃ a alt payload b, output.toList =
        a ++ ('!' :: '[' :: (alt ++ (imgMarker ++ (payload ++ ')' :: b)))) ∧
        (∀ c ∈ alt, ¬(c = '\n')) ∧ payload ≠ [] ∧ (∀ c ∈ payload, ¬(c = ')'))) :
    (extract_chart_data output ty).title = "Mike Trout - 2020 Spray Chart" ∧
    (extract_chart_data output ty).image_data ≠ "" := by
  constructor
  · have htf : titleFind output.toList =
        some ("Mike Trout - 2020 Spray Chart".toList) := by
      rw [hout, titleFind_append_skip pl _
        (by intro n hn; have h := hpre n hn; rwa [hout] at h)]
      exact titleFind_mike_trout_heading suf
    have htf2 : titleFind output.data =
        some ("Mike Trout - 2020 Spray Chart".toList) := htf
    simp [extract_chart_data, htf2]
  · obtain ⟨a, alt, payload, b, hdec, halt, hp1, hp2⟩ := himg
    have hhm : (imgHeadMatch ('!' :: '[' ::
        (alt ++ (imgMarker ++ (payload ++ ')' :: b))))).isSome = true := by
      show (imgTail (alt ++ (imgMarker ++ (payload ++ ')' :: b)))).isSome = true
      exact imgTail_isSome alt payload b halt hp1 hp2
    have hfind : (imgFind output.toList).isSome = true := by
      rw [hdec]
      exact imgFind_isSome_append a _ hhm
    obtain ⟨p, hp⟩ := Option.isSome_iff_exists.mp hfind
    have hpne : p ≠ [] := imgFind_ne_nil _ _ hp
    have hpd : imgFind output.data = some p := hp
    simp [extract_chart_data, hpd]
    intro hcon
    exact hpne (by simpa using congrArg String.data hcon)

theorem extract_chart_data_mike_trout_witness :
    (extract_chart_data
        "# Mike Trout - 2020 Spray Chart\n![p](data:image/png;base64,AAAA)"
        "spray_chart").title = "Mike Trout - 2020 Spray Chart" ∧
    (extract_chart_data
        "# Mike Trout - 2020 Spray Chart\n![p](data:image/png;base64,AAAA)"
        "spray_chart").image_data ≠ "" :=
  extract_chart_data_mike_trout
    "# Mike Trout - 2020 Spray Chart\n![p](data:image/png;base64,AAAA)"
    "spray_chart" []
    "![p](data:image/png;base64,AAAA)".toList
    (by decide)
    (by intro n hn; simp at hn)
    ⟨"# Mike Trout - 2020 Spray Chart\n".toList, ['p'], "AAAA".toList, [],
      by decide, by decide, by decide, by decide⟩

/-- C6 counterexample: a text whose first `'# '`-headed line is
`# Mike Trout - 2020 Spray Chart` and which contains one embedded base64
PNG image link, but in which an earlier mid-line `'# '` occurrence makes
`re.search(r'# (.+)')` capture `"y"` instead of the heading: the
extracted title is not `"Mike Trout - 2020 Spray Chart"`. -/
theorem extract_chart_data_counterexample :
    firstHashHeadingLine
        "x # y\n# Mike Trout - 2020 Spray Chart\n![p](data:image/png;base64,AAAA)" =
      some "# Mike Trout - 2020 Spray Chart" ∧
    (imgFind
        ("x # y\n# Mike Trout - 2020 Spray Chart\n![p](data:image/png;base64,AAAA)").toList).isSome
      = true ∧
    (extract_chart_data
        "x # y\n# Mike Trout - 2020 Spray Chart\n![p](data:image/png;base64,AAAA)"
        "spray_chart").title = "y" ∧
    (extract_chart_data
        "x # y\n# Mike Trout - 2020 Spray Chart\n![p](data:image/png;base64,AAAA)"
        "spray_chart").title ≠ "Mike Trout - 2020 Spray Chart" := by
  refine ⟨by decide, by decide, by decide, by decide⟩

theorem digitVal_digitChar : ∀ k, k < 10 → digitVal (Nat.digitChar k) = some k := by
  decide

theorem parseY4_pad4 (y : Nat) (h2 : y ≤ 9999) (rest : List Char) :
    parseY4 (pad4 y ++ rest) = some (y, rest) := by
  have e1 := digitVal_digitChar (y / 1000) (by omega)
  have e2 := digitVal_digitChar (y / 100 % 10) (by omega)
  have e3 := digitVal_digitChar (y / 10 % 10) (by omega)
  have e4 := digitVal_digitChar (y % 10) (by omega)
  simp [pad4, parseY4, e1, e2, e3, e4]
  omega

theorem parseM_pad2 (m : Nat) (h1 : 1 ≤ m) (h2 : m ≤ 12) (rest : List Char) :
    ∃ extra, parseM (pad2 m ++ rest) = (m, rest) :: extra := by
  interval_cases m <;> exact ⟨_, rfl⟩

theorem parseD_pad2 (d : Nat) (h1 : 1 ≤ d) (h2 : d ≤ 31) (rest : List Char) :
    ∃ extra, parseD (pad2 d ++ rest) = (d, rest) :: extra := by
  interval_cases d <;> exact ⟨_, rfl⟩

theorem daysInMonth_le_31 (y m : Nat) : daysInMonth y m ≤ 31 := by
  unfold daysInMonth
  split <;> first | omega | (split_ifs <;> omega)

theorem runYfirst_dateFmt (y m d : Nat) (hv : validDate y m d = true) :
    runYfirst '-' (dateFmtL y m d) = some (y, m, d) := by
  have hb : (1 ≤ y ∧ y ≤ 9999) ∧ (1 ≤ m ∧ m ≤ 12) ∧ 1 ≤ d ∧ d ≤ daysInMonth y m := by
    simpa [validDate, Bool.and_eq_true, decide_eq_true_eq, and_assoc] using hv
  obtain ⟨⟨hy1, hy2⟩, ⟨hm1, hm2⟩, hd1, hd2⟩ := hb
  have hd31 : d ≤ 31 := le_trans hd2 (daysInMonth_le_31 y m)
  obtain ⟨extraM, hM⟩ := parseM_pad2 m hm1 hm2 ('-' :: pad2 d)
  obtain ⟨extraD, hD⟩ := parseD_pad2 d hd1 hd31 []
  rw [List.append_nil] at hD
  unfold runYfirst dateFmtL
  rw [parseY4_pad4 y hy2]
  simp only [lit, if_pos]
  rw [hM]
  simp only [tryCands, lit, if_true]
  rw [hD]
  simp only [tryCands, checkDate, hv, if_true]

theorem tryCands_some {α : Type} (l : List (Nat × List Char))
    (k : Nat → List Char → Option α) (x : α) (h : tryCands l k = some x) :
    ∃ v r, k v r = some x := by
  induction l with
  | nil => simp [tryCands] at h
  | cons p rest ih =>
    obtain ⟨v, r⟩ := p
    unfold tryCands at h
    cases hk : k v r with
    | some z =>
      rw [hk] at h
      injection h with h1
      exact ⟨v, r, by rw [hk, h1]⟩
    | none =>
      rw [hk] at h
      exact ih h

theorem checkDate_some (a b c y m d : Nat)
    (h : checkDate a b c = some (y, m, d)) : validDate y m d = true := by
  unfold checkDate at h
  split_ifs at h with hv
  simp only [Option.some.injEq, Prod.mk.injEq] at h
  obtain ⟨h1, h2, h3⟩ := h
  rw [← h1, ← h2, ← h3]
  exact hv

theorem runYfirst_valid (sep : Char) (cs : List Char) (y m d : Nat)
    (h : runYfirst sep cs = some (y, m, d)) : validDate y m d = true := by
  unfold runYfirst at h
  cases hY : parseY4 cs with
  | none => rw [hY] at h; simp at h
  | some p =>
    obtain ⟨y0, r1⟩ := p
    rw [hY] at h
    dsimp only at h
    cases hL : lit sep r1 with
    | none => rw [hL] at h; simp at h
    | some r2 =>
      rw [hL] at h
      dsimp only at h
      obtain ⟨m0, r3, hk⟩ := tryCands_some _ _ _ h
      cases hL2 : lit sep r3 with
      | none => rw [hL2] at hk; simp at hk
      | some r4 =>
        rw [hL2] at hk
        dsimp only at hk
        obtain ⟨d0, r5, hk2⟩ := tryCands_some _ _ _ hk
        cases r5 with
        | nil => exact checkDate_some _ _ _ _ _ _ hk2
        | cons c5 r6 => simp at hk2

theorem runYlast_valid (sep : Char) (cs : List Char) (y m d : Nat)
    (h : runYlast sep cs = some (y, m, d)) : validDate y m d = true := by
  unfold runYlast at h
  obtain ⟨m0, r1, hk⟩ := tryCands_some _ _ _ h
  cases hL : lit sep r1 with
  | none => rw [hL] at hk; simp at hk
  | some r2 =>
    rw [hL] at hk
    dsimp only at hk
    obtain ⟨d0, r3, hk2⟩ := tryCands_some _ _ _ hk
    cases hL2 : lit sep r3 with
    | none => rw [hL2] at hk2; simp at hk2
    | some r4 =>
      rw [hL2] at hk2
      dsimp only at hk2
      cases hY : parseY4 r4 with
      | none => rw [hY] at hk2; simp at hk2
      | some p =>
        obtain ⟨y0, r5⟩ := p
        rw [hY] at hk2
        cases r5 with
        | nil => exact checkDate_some _ _ _ _ _ _ hk2
        | cons c5 r6 => simp at hk2

theorem parseDateL_valid (cs : List Char) (y m d : Nat)
    (h : parseDateL cs = some (y, m, d)) : validDate y m d = true := by
  unfold parseDateL at h
  cases h1 : runYfirst '-' cs with
  | some t =>
    rw [h1] at h
    injection h with h2
    rw [h2] at h1
    exact runYfirst_valid _ _ _ _ _ h1
  | none =>
    rw [h1] at h
    cases h2 : runYlast '/' cs with
    | some t =>
      rw [h2] at h
      injection h with h3
      rw [h3] at h2
      exact runYlast_valid _ _ _ _ _ h2
    | none =>
      rw [h2] at h
      cases h3 : runYlast '-' cs with
      | some t =>
        rw [h3] at h
        injection h with h4
        rw [h4] at h3
        exact runYlast_valid _ _ _ _ _ h3
      | none =>
        rw [h3] at h
        exact runYfirst_valid _ _ _ _ _ h

/-- C2: for every pair of date strings accepted by `validate_date`
(equivalently, parsed by `parseDateL` to dates `(ys,ms,ds)` and
`(ye,me,de)`), `validate_date_range` raises exactly when the end date is
less than or equal to the start date or the range spans more than
5 years (`365 * 5` days, as the code counts it), and otherwise returns
both dates normalized to `YYYY-MM-DD` (`dateFmt`). -/
theorem validate_date_range_spec (s e : String) (ys ms ds ye me de : Nat)
    (hs : parseDateL s.toList = some (ys, ms, ds))
    (he : parseDateL e.toList = some (ye, me, de)) :
    ((dateOrd ye me de ≤ dateOrd ys ms ds ∨
        365 * 5 < dateOrd ye me de - dateOrd ys ms ds) →
      ∃ msg, validate_date_range s e = .error msg) ∧
    (dateOrd ys ms ds < dateOrd ye me de →
      dateOrd ye me de - dateOrd ys ms ds ≤ 365 * 5 →
      validate_date_range s e = .ok (dateFmt ys ms ds, dateFmt ye me de)) := by
  have hvs := parseDateL_valid _ _ _ _ hs
  have hve := parseDateL_valid _ _ _ _ he
  have hsne : s ≠ "" := by
    intro hh
    rw [hh, show parseDateL ("" : String).toList = none from by decide] at hs
    exact Option.noConfusion hs
  have hene : e ≠ "" := by
    intro hh
    rw [hh, show parseDateL ("" : String).toList = none from by decide] at he
    exact Option.noConfusion he
  have hvd_s : validate_date s = .ok (dateFmt ys ms ds) := by
    unfold validate_date
    rw [if_neg hsne, hs]
  have hvd_e : validate_date e = .ok (dateFmt ye me de) := by
    unfold validate_date
    rw [if_neg hene, he]
  have hrs : runYfirst '-' (dateFmt ys ms ds).toList = some (ys, ms, ds) := by
    show runYfirst '-' (dateFmtL ys ms ds) = some (ys, ms, ds)
    exact runYfirst_dateFmt _ _ _ hvs
  have hre : runYfirst '-' (dateFmt ye me de).toList = some (ye, me, de) := by
    show runYfirst '-' (dateFmtL ye me de) = some (ye, me, de)
    exact runYfirst_dateFmt _ _ _ hve
  constructor
  · intro hcond
    unfold validate_date_range
    rw [hvd_s]
    dsimp only
    rw [hvd_e]
    dsimp only
    rw [hrs, hre]
    dsimp only
    by_cases h1 : dateOrd ye me de ≤ dateOrd ys ms ds
    · exact ⟨_, by rw [if_pos h1]⟩
    · rw [if_neg h1]
      rcases hcond with hc | hc
      · exact absurd hc h1
      · exact ⟨_, by rw [if_pos hc]⟩
  · intro hlt hle
    unfold validate_date_range
    rw [hvd_s]
    dsimp only
    rw [hvd_e]
    dsimp only
    rw [hrs, hre]
    dsimp only
    rw [if_neg (by omega), if_neg (by omega)]

theorem validate_date_range_spec_witness :
    validate_date_range "01/02/2020" "2020-01-05" =
      .ok (dateFmt 2020 1 2, dateFmt 2020 1 5) ∧
    dateFmt 2020 1 2 = "2020-01-02" ∧ dateFmt 2020 1 5 = "2020-01-05" :=
  ⟨(validate_date_range_spec "01/02/2020" "2020-01-05" 2020 1 2 2020 1 5
      (by decide) (by decide)).2 (by decide) (by decide),
   by decide, by decide⟩
